import Mathlib

/-!
Shallow embedding of the evaluation pipeline and radar models of the
phased-array-systems repository.

Sources embedded from the repository:
* `src/phased_array_systems/evaluate.py` (`evaluate_case`)
* `src/phased_array_systems/models/radar/equation.py` (`RadarModel.evaluate`)
* `src/phased_array_systems/models/radar/detection.py`
  (`compute_detection_threshold`, `compute_pd_from_snr`, `albersheim_snr`)
* `src/phased_array_systems/models/radar/integration.py`
  (`coherent_integration_gain`, `noncoherent_integration_gain`, `integration_loss`)
* `src/phased_array_systems/scenarios/radar.py` (`RadarDetectionScenario`)
* `src/phased_array_systems/constants.py` (constants and dB conversions)
* `app/pages/2_Trade_Study.py` (demo Pareto dominance loop), generalized per
  the specification of `extract_pareto`.

Python floats are modelled as rationals.  Transcendental float operations
(log10, 10**x, sqrt, ln, erfc, the inverse incomplete gamma function, pi)
are abstracted into an `Ops` record of rational-valued functions so that the
embedding stays executable; theorems about control flow, key propagation and
clamping hold for every interpretation of these operations.  For the one
claim whose truth depends on the analytic behaviour of log10 (the
integration-gain comparison), a real-number semantics of
`models/radar/integration.py` is given in the `RealSem` namespace using
`Real.logb 10`.

Collaborating code that is not part of the provided sources (the
`Architecture` record, the antenna adapter, the power, cost and comms
models, the requirement set) is modelled from the spec; each such
definition carries a doc comment starting with `Modelled from the spec:`.
-/

/-- A metric value: Python metric dictionaries hold floats (modelled as
rationals) and a small number of strings. -/
inductive MValue where
  | num (q : ℚ)
  | str (s : String)
deriving DecidableEq, Repr

/-- A Python dict from metric names to values, in insertion order. -/
abbrev MetricsDict := List (String × MValue)

/-- First-match association lookup (Python `d[k]` / `k in d` on dicts whose
keys are unique, as Python guarantees). -/
def alookup {α : Type} : List (String × α) → String → Option α
  | [], _ => none
  | p :: rest, k => if p.1 = k then some p.2 else alookup rest k

/-- Python dict assignment `d[k] = v`: replace the value in place if the key
exists, otherwise append the new key at the end. -/
def dictSet : MetricsDict → String → MValue → MetricsDict
  | [], k, v => [(k, v)]
  | p :: rest, k, v => if p.1 = k then (k, v) :: rest else p :: dictSet rest k v

/-- Python `metrics.update(new)`: assign every key/value pair of `new` into
the dict, in order, silently overwriting existing keys. -/
def dictUpdate (d : MetricsDict) (new : MetricsDict) : MetricsDict :=
  new.foldl (fun acc p => dictSet acc p.1 p.2) d

/-- Numeric read of a dict entry: `some q` exactly when the key is present
with a float value. -/
def ctxNum (d : MetricsDict) (k : String) : Option ℚ :=
  match alookup d k with
  | some (MValue.num q) => some q
  | _ => none

theorem alookup_dictSet (d : MetricsDict) (k k' : String) (v : MValue) :
    alookup (dictSet d k v) k' = if k = k' then some v else alookup d k' := by
  induction d with
  | nil =>
    simp only [dictSet, alookup]
  | cons p rest ih =>
    simp only [dictSet]
    by_cases hpk : p.1 = k
    · rw [if_pos hpk]
      by_cases hkk : k = k' <;> simp [alookup, hkk, hpk]
    · rw [if_neg hpk]
      simp only [alookup, ih]
      by_cases h2 : p.1 = k'
      · have hkk : ¬k = k' := fun h => hpk (by rw [h]; exact h2)
        simp [h2, hkk]
      · simp [h2]

theorem alookup_append {α : Type} (l1 l2 : List (String × α)) (k : String) :
    alookup (l1 ++ l2) k =
      match alookup l1 k with
      | some v => some v
      | none => alookup l2 k := by
  induction l1 with
  | nil => simp [alookup]
  | cons p rest ih =>
    by_cases hpk : p.1 = k
    · simp [alookup, hpk]
    · simp [alookup, hpk, ih]

/-- Last-writer-wins characterisation of `dictUpdate`: a lookup in the
updated dict returns the last binding of the key in `new` when there is
one, and falls back to the old dict otherwise. -/
theorem alookup_dictUpdate (new : MetricsDict) (d : MetricsDict) (k : String) :
    alookup (dictUpdate d new) k =
      match alookup new.reverse k with
      | some v => some v
      | none => alookup d k := by
  induction new generalizing d with
  | nil => simp [dictUpdate, alookup]
  | cons p rest ih =>
    show alookup (dictUpdate (dictSet d p.1 p.2) rest) k = _
    rw [ih]
    simp only [List.reverse_cons]
    rw [alookup_append]
    cases hl : alookup rest.reverse k with
    | some v => rfl
    | none =>
      simp only [alookup, alookup_dictSet]
      by_cases hpk : p.1 = k
      · simp [hpk]
      · simp [hpk]

theorem alookup_dictUpdate_of_mem (new d : MetricsDict) (k : String) (v : MValue)
    (h : alookup new.reverse k = some v) :
    alookup (dictUpdate d new) k = some v := by
  rw [alookup_dictUpdate, h]

theorem alookup_dictUpdate_of_none (new d : MetricsDict) (k : String)
    (h : alookup new.reverse k = none) :
    alookup (dictUpdate d new) k = alookup d k := by
  rw [alookup_dictUpdate, h]

/-- Abstraction of the transcendental floating-point operations used by the
radar models (math.log10, 10**x, x**y, math.sqrt, math.log, scipy erfc,
scipy gammaincinv, math.pi).  Rational-valued so the embedding stays
executable; theorems quantify over all interpretations unless the claim
depends on analytic facts.  `neginf` stands for the float `-inf` produced
by `w_to_dbw` on non-positive input. -/
structure Ops where
  log10 : ℚ → ℚ
  pow10 : ℚ → ℚ
  rpow : ℚ → ℚ → ℚ
  sqrt : ℚ → ℚ
  ln : ℚ → ℚ
  erfc : ℚ → ℚ
  gammaincinv : ℚ → ℚ → ℚ
  pi : ℚ
  neginf : ℚ

/-- A concrete interpretation of the abstract float operations, used to
evaluate the embedding on closed inputs. -/
def defaultOps : Ops :=
  { log10 := fun _ => 0
    pow10 := fun _ => 0
    rpow := fun _ _ => 0
    sqrt := fun _ => 0
    ln := fun _ => 0
    erfc := fun _ => 0
    gammaincinv := fun _ _ => 0
    pi := 0
    neginf := 0 }

/-- constants.py: speed of light in vacuum, m/s. -/
def C_LIGHT : ℚ := 299792458

/-- constants.py: Boltzmann constant, J/K (1.380649e-23). -/
def K_B : ℚ := 1380649 / 10 ^ 29

/-- constants.py `w_to_dbw`: 10*log10(w) for positive w, float -inf
otherwise. -/
def W_TO_DBW (ops : Ops) (w : ℚ) : ℚ :=
  if 0 < w then 10 * ops.log10 w else ops.neginf

/-- The two pulse-integration strategies of `RadarDetectionScenario`
(`Literal["coherent", "noncoherent"]`). -/
inductive IntegrationType where
  | coherent
  | noncoherent
deriving DecidableEq, Repr

/-- scenarios/radar.py `RadarDetectionScenario`: operating conditions of a
monostatic radar detection case.  `freq_hz` comes from the scenario base
class. -/
structure RadarDetectionScenario where
  freq_hz : ℚ
  bandwidth_hz : ℚ
  range_m : ℚ
  target_rcs_dbsm : ℚ
  rx_noise_temp_k : ℚ
  pfa : ℚ
  pd_required : ℚ
  n_pulses : ℤ
  scan_angle_deg : ℚ
  integration_type : IntegrationType
deriving DecidableEq, Repr

/-- The pydantic field validators of `RadarDetectionScenario`
(scenarios/radar.py): bandwidth, range and noise temperature positive,
0 < pfa < 1, 0 < pd_required < 1, n_pulses >= 1, 0 <= scan angle <= 90;
a positive frequency is required by the scenario base class. -/
def RadarDetectionScenario.valid (s : RadarDetectionScenario) : Bool :=
  0 < s.freq_hz && 0 < s.bandwidth_hz && 0 < s.range_m &&
    0 < s.rx_noise_temp_k && 0 < s.pfa && s.pfa < 1 &&
    0 < s.pd_required && s.pd_required < 1 && 1 ≤ s.n_pulses &&
    0 ≤ s.scan_angle_deg && s.scan_angle_deg ≤ 90

/-- Modelled from the spec: the communications-link scenario variant
(`CommsLinkScenario`, not among the provided sources) with its required
fields: frequency, bandwidth, range and the variant-specific required
SNR. -/
structure CommsLinkScenario where
  freq_hz : ℚ
  bandwidth_hz : ℚ
  range_m : ℚ
  snr_required_db : ℚ
deriving DecidableEq, Repr

/-- The scenario tagged union: the pipeline dispatches on the variant
(communications link or radar detection). -/
inductive Scenario where
  | comms (c : CommsLinkScenario)
  | radar (r : RadarDetectionScenario)
deriving DecidableEq, Repr

/-- Modelled from the spec: the array-geometry facet of a Design
(element counts and spacing); `ArrayConfig` is not among the provided
sources.  `n_elements` is the element count nx*ny used by the radar
model and the tests. -/
structure ArrayConfig where
  nx : ℕ
  ny : ℕ
  dx_lambda : ℚ
  dy_lambda : ℚ
deriving DecidableEq, Repr

def ArrayConfig.n_elements (a : ArrayConfig) : ℕ := a.nx * a.ny

/-- Modelled from the spec: the RF-chain facet of a Design (power,
noise figure, losses); `RFChainConfig` is not among the provided
sources.  Fields are those read by `RadarModel.evaluate`. -/
structure RFChainConfig where
  tx_power_w_per_elem : ℚ
  feed_loss_db : ℚ
  system_loss_db : ℚ
  noise_figure_db : ℚ
deriving DecidableEq, Repr

/-- Modelled from the spec: the cost facet of a Design (per-element,
non-recurring and integration costs); not among the provided sources. -/
structure CostConfig where
  cost_per_element_usd : ℚ
  nre_usd : ℚ
  integration_usd : ℚ
deriving DecidableEq, Repr

/-- Modelled from the spec: a Design (`Architecture`), an immutable record
with array-geometry, RF-chain and cost facets; the `Architecture` class is
not among the provided sources. -/
structure Architecture where
  array : ArrayConfig
  rf : RFChainConfig
  cost : CostConfig
deriving DecidableEq, Repr

/-- detection.py `compute_detection_threshold`: CFAR threshold from the
inverse incomplete gamma function, guarded on pfa and n_samples. -/
def compute_detection_threshold (ops : Ops) (pfa : ℚ) (n_samples : ℤ) :
    Except String ℚ :=
  if ¬(0 < pfa ∧ pfa < 1) then Except.error "pfa must be between 0 and 1"
  else if n_samples < 1 then Except.error "n_samples must be >= 1"
  else Except.ok (ops.gammaincinv n_samples (1 - pfa))

/-- detection.py `compute_pd_from_snr`: probability of detection for a given
SNR, Swerling model and integration strategy; the result is clamped to
[0, 1] before being returned. -/
def compute_pd_from_snr (ops : Ops) (snr_db pfa : ℚ) (swerling : ℤ)
    (n_pulses : ℤ) (integration : IntegrationType) : Except String ℚ :=
  if ¬(0 < pfa ∧ pfa < 1) then Except.error "pfa must be between 0 and 1"
  else
    let snr_linear := ops.pow10 (snr_db / 10)
    let snr_integrated :=
      match integration with
      | IntegrationType.coherent => snr_linear * (n_pulses : ℚ)
      | IntegrationType.noncoherent => snr_linear * ops.rpow (n_pulses : ℚ) (8 / 10)
    match compute_detection_threshold ops pfa 1 with
    | Except.error e => Except.error e
    | Except.ok threshold =>
      if swerling = 0 then
        let a := ops.sqrt (2 * snr_integrated)
        let b := ops.sqrt (2 * threshold)
        -- both branches of the source `if a > b` compute the same value
        let pd :=
          if b < a then 1 / 2 * ops.erfc ((b - a) / ops.sqrt 2)
          else 1 / 2 * ops.erfc ((b - a) / ops.sqrt 2)
        Except.ok (max 0 (min 1 pd))
      else if swerling = 1 ∨ swerling = 2 ∨ swerling = 3 ∨ swerling = 4 then
        let c : ℚ :=
          if swerling = 1 then 1
          else if swerling = 2 then 1 / 2
          else if swerling = 3 then 2
          else 1
        let factor := if 0 < snr_integrated then 1 + c / snr_integrated else 0
        let adj_snr := if 0 < factor then snr_integrated / factor else snr_integrated
        let a := ops.sqrt (2 * adj_snr)
        let b := ops.sqrt (2 * threshold)
        let pd := 1 / 2 * ops.erfc ((b - a) / ops.sqrt 2)
        Except.ok (max 0 (min 1 pd))
      else Except.error "Unknown Swerling model"

/-- detection.py `albersheim_snr`: empirical required SNR for a detection
probability and false-alarm rate, with its validity-domain guards. -/
def albersheim_snr (ops : Ops) (pd pfa : ℚ) (n_pulses : ℤ) : Except String ℚ :=
  if ¬(1 / 10 ≤ pd ∧ pd ≤ 9999 / 10000) then
    Except.error "pd must be between 0.1 and 0.9999 for Albersheim"
  else if ¬(1 / 10 ^ 10 ≤ pfa ∧ pfa ≤ 1 / 10) then
    Except.error "pfa must be between 1e-10 and 0.1 for Albersheim"
  else if n_pulses < 1 then Except.error "n_pulses must be >= 1"
  else
    let A := ops.ln (62 / 100 / pfa)
    let B := ops.ln (pd / (1 - pd))
    Except.ok (-5 * ops.log10 (n_pulses : ℚ) +
      (62 / 10 + 454 / 100 / ops.sqrt ((n_pulses : ℚ) + 44 / 100)) *
        ops.log10 (A + 12 / 100 * A * B + 17 / 10 * B))

/-- integration.py `coherent_integration_gain`: 10*log10(n) dB, 0 dB for a
single pulse, rejecting n < 1. -/
def coherent_integration_gain (ops : Ops) (n_pulses : ℤ) : Except String ℚ :=
  if n_pulses < 1 then Except.error "n_pulses must be >= 1"
  else if n_pulses = 1 then Except.ok 0
  else Except.ok (10 * ops.log10 (n_pulses : ℚ))

/-- integration.py `noncoherent_integration_gain`: 10*eff*log10(n) dB with
an empirical efficiency driven by pd, 0 dB for a single pulse, rejecting
n < 1. -/
def noncoherent_integration_gain (ops : Ops) (n_pulses : ℤ) (pd pfa : ℚ) :
    Except String ℚ :=
  if n_pulses < 1 then Except.error "n_pulses must be >= 1"
  else if n_pulses = 1 then Except.ok 0
  else
    let efficiency : ℚ :=
      if 99 / 100 ≤ pd then 7 / 10
      else if 9 / 10 ≤ pd then 8 / 10
      else if 1 / 2 ≤ pd then 85 / 100
      else 9 / 10
    Except.ok (10 * efficiency * ops.log10 (n_pulses : ℚ))

/-- equation.py `RadarModel.evaluate`, antenna-gain step: the gain from the
context's `g_peak_db` when present (minus any `scan_loss_db` in the
context), otherwise the approximate gain of a uniform rectangular
aperture. -/
def radarGAnt (ops : Ops) (arch : Architecture) (context : MetricsDict) : ℚ :=
  match ctxNum context "g_peak_db" with
  | some g =>
    match ctxNum context "scan_loss_db" with
    | some sl => g - sl
    | none => g
  | none =>
    10 * ops.log10 (4 * ops.pi *
      ((arch.array.nx : ℚ) * arch.array.dx_lambda * (arch.array.ny : ℚ) *
        arch.array.dy_lambda))

/-- equation.py `RadarModel.evaluate`: the monostatic radar range equation
in dB form, producing the radar metric dictionary.  Exceptions raised by
the integration-gain, Albersheim and detection-probability helpers
propagate. -/
def RadarModel.evaluate (ops : Ops) (arch : Architecture)
    (scenario : RadarDetectionScenario) (context : MetricsDict) :
    Except String MetricsDict :=
  let g_ant_db : ℚ := radarGAnt ops arch context
  let n_elements : ℚ := (arch.array.n_elements : ℚ)
  let peak_power_w := arch.rf.tx_power_w_per_elem * n_elements
  let peak_power_dbw := W_TO_DBW ops peak_power_w
  let wavelength_m := C_LIGHT / scenario.freq_hz
  let wavelength_db := 10 * ops.log10 wavelength_m
  let system_loss_db := arch.rf.feed_loss_db + arch.rf.system_loss_db
  let rcs_dbsm := scenario.target_rcs_dbsm
  let rcs_m2 := ops.pow10 (rcs_dbsm / 10)
  let range_m := scenario.range_m
  let range_db := 10 * ops.log10 range_m
  let noise_temp_k := scenario.rx_noise_temp_k
  let noise_power_w := K_B * noise_temp_k * scenario.bandwidth_hz
  let noise_power_dbw := W_TO_DBW ops noise_power_w + arch.rf.noise_figure_db
  let radar_constant_db := 30 * ops.log10 (4 * ops.pi)
  let snr_single_db :=
    peak_power_dbw + 2 * g_ant_db + 2 * wavelength_db + rcs_dbsm -
      4 * range_db - system_loss_db - radar_constant_db - noise_power_dbw
  match (match scenario.integration_type with
    | IntegrationType.coherent => coherent_integration_gain ops scenario.n_pulses
    | IntegrationType.noncoherent =>
      noncoherent_integration_gain ops scenario.n_pulses scenario.pd_required
        scenario.pfa) with
  | Except.error e => Except.error e
  | Except.ok integration_gain_db =>
    let snr_integrated_db := snr_single_db + integration_gain_db
    match albersheim_snr ops scenario.pd_required scenario.pfa 1 with
    | Except.error e => Except.error e
    | Except.ok snr_required_db =>
      let snr_margin_db := snr_integrated_db - snr_required_db
      match compute_pd_from_snr ops snr_integrated_db scenario.pfa 0 1
          IntegrationType.coherent with
      | Except.error e => Except.error e
      | Except.ok pd_achieved =>
        let detection_range_m :=
          if -40 < snr_margin_db then range_m * ops.pow10 (snr_margin_db / 40)
          else 0
        Except.ok
          [("peak_power_w", MValue.num peak_power_w),
           ("peak_power_dbw", MValue.num peak_power_dbw),
           ("g_ant_db", MValue.num g_ant_db),
           ("wavelength_m", MValue.num wavelength_m),
           ("target_rcs_dbsm", MValue.num rcs_dbsm),
           ("target_rcs_m2", MValue.num rcs_m2),
           ("range_m", MValue.num range_m),
           ("noise_power_dbw", MValue.num noise_power_dbw),
           ("system_loss_db", MValue.num system_loss_db),
           ("snr_single_pulse_db", MValue.num snr_single_db),
           ("integration_gain_db", MValue.num integration_gain_db),
           ("snr_integrated_db", MValue.num snr_integrated_db),
           ("snr_required_db", MValue.num snr_required_db),
           ("snr_margin_db", MValue.num snr_margin_db),
           ("pd_achieved", MValue.num pd_achieved),
           ("pd_required", MValue.num scenario.pd_required),
           ("pfa", MValue.num scenario.pfa),
           ("n_pulses", MValue.num (scenario.n_pulses : ℚ)),
           ("integration_type",
             MValue.str (match scenario.integration_type with
               | IntegrationType.coherent => "coherent"
               | IntegrationType.noncoherent => "noncoherent")),
           ("detection_range_m", MValue.num detection_range_m)]

namespace RealSem

/-- Real-number semantics of integration.py `coherent_integration_gain`,
with `math.log10` interpreted as the real base-10 logarithm (used for the
claim that compares the two gains analytically). -/
noncomputable def coherent_gain_val (n_pulses : ℤ) : ℝ :=
  if n_pulses = 1 then 0 else 10 * Real.logb 10 (n_pulses : ℝ)

/-- Real-number semantics of integration.py `noncoherent_integration_gain`
past its guard. -/
noncomputable def noncoherent_gain_val (n_pulses : ℤ) (pd : ℚ) : ℝ :=
  if n_pulses = 1 then 0
  else
    let efficiency : ℝ :=
      if (99 : ℚ) / 100 ≤ pd then 7 / 10
      else if (9 : ℚ) / 10 ≤ pd then 8 / 10
      else if (1 : ℚ) / 2 ≤ pd then 85 / 100
      else 9 / 10
    10 * efficiency * Real.logb 10 (n_pulses : ℝ)

/-- integration.py `coherent_integration_gain` over the reals. -/
noncomputable def coherent_integration_gain (n_pulses : ℤ) : Except String ℝ :=
  if n_pulses < 1 then Except.error "n_pulses must be >= 1"
  else Except.ok (coherent_gain_val n_pulses)

/-- integration.py `noncoherent_integration_gain` over the reals (the
`pfa` argument is accepted and ignored, as in the source). -/
noncomputable def noncoherent_integration_gain (n_pulses : ℤ) (pd pfa : ℚ) :
    Except String ℝ :=
  if n_pulses < 1 then Except.error "n_pulses must be >= 1"
  else Except.ok (noncoherent_gain_val n_pulses pd)

/-- integration.py `integration_loss`: 0 dB for coherent integration,
otherwise the difference of the two gains. -/
noncomputable def integration_loss (n_pulses : ℤ)
    (integration_type : IntegrationType) (pd pfa : ℚ) : Except String ℝ :=
  match integration_type with
  | IntegrationType.coherent => Except.ok 0
  | IntegrationType.noncoherent =>
    match coherent_integration_gain n_pulses with
    | Except.error e => Except.error e
    | Except.ok coh =>
      match noncoherent_integration_gain n_pulses pd pfa with
      | Except.error e => Except.error e
      | Except.ok noncoh => Except.ok (coh - noncoh)

end RealSem

/-- Modelled from the spec: a requirement's comparison operator
(greater-or-equal, less-or-equal, equal, greater, less); the
`Requirement` class is not among the provided sources. -/
inductive CompareOp where
  | ge
  | le
  | eq
  | gt
  | lt
deriving DecidableEq, Repr

/-- Modelled from the spec: requirement severity, `must` or `should`. -/
inductive Severity where
  | must
  | should
deriving DecidableEq, Repr

/-- Modelled from the spec: a Requirement (identifier, target metric key,
comparison operator, threshold, severity); not among the provided
sources. -/
structure Requirement where
  id : String
  metric_key : String
  op : CompareOp
  threshold : ℚ
  severity : Severity
deriving DecidableEq, Repr

/-- Modelled from the spec: a RequirementSet is an ordered collection of
Requirements. -/
abbrev RequirementSet := List Requirement

/-- Modelled from the spec: a Verification Report (aggregate pass flag,
must-pass and must-total counts, ordered failed identifiers). -/
structure VerificationReport where
  passes : Bool
  must_pass_count : ℕ
  must_total_count : ℕ
  failed_ids : List String
deriving DecidableEq, Repr

def CompareOp.apply (op : CompareOp) (v threshold : ℚ) : Bool :=
  match op with
  | CompareOp.ge => threshold ≤ v
  | CompareOp.le => v ≤ threshold
  | CompareOp.eq => v = threshold
  | CompareOp.gt => threshold < v
  | CompareOp.lt => v < threshold

/-- Modelled from the spec: a requirement passes when its target metric key
is present with a numeric value satisfying the comparison; a missing key is
a failure, never a silent skip. -/
def Requirement.passes (r : Requirement) (metrics : MetricsDict) : Bool :=
  match ctxNum metrics r.metric_key with
  | none => false
  | some v => r.op.apply v r.threshold

/-- Modelled from the spec: `RequirementSet.verify` reduces a metrics
record to a Verification Report; a case passes overall iff every
must-severity requirement passes. -/
def verify (reqs : RequirementSet) (metrics : MetricsDict) :
    VerificationReport :=
  { passes := reqs.all fun r => r.severity = Severity.should || r.passes metrics
    must_pass_count :=
      (reqs.filter fun r =>
        r.severity = Severity.must && r.passes metrics).length
    must_total_count :=
      (reqs.filter fun r => decide (r.severity = Severity.must)).length
    failed_ids := (reqs.filter fun r => !r.passes metrics).map Requirement.id }

/-- Modelled from the spec: the collaborating metric models of the pipeline
that are not among the provided sources (the antenna adapter, the power and
cost SWaP-C models on the full scenario, and the comms-link model on the
comms variant).  Each is a pure mapping from design, scenario and
accumulated context to a new metric mapping, or an exception. -/
structure Collab where
  antenna : Architecture → Scenario → MetricsDict → Except String MetricsDict
  power : Architecture → Scenario → MetricsDict → Except String MetricsDict
  cost : Architecture → Scenario → MetricsDict → Except String MetricsDict
  comms : Architecture → CommsLinkScenario → MetricsDict → Except String MetricsDict

/-- evaluate.py, scenario-specific dispatch of `evaluate_case`: the comms
model on a `CommsLinkScenario`, the radar model on a
`RadarDetectionScenario`, nothing else. -/
def scenarioModel (collab : Collab) (ops : Ops) (arch : Architecture)
    (scenario : Scenario) (context : MetricsDict) : Except String MetricsDict :=
  match scenario with
  | Scenario.comms c => collab.comms arch c context
  | Scenario.radar r => RadarModel.evaluate ops arch r context

/-- The tag of the scenario-specific model chosen by `evaluate_case`. -/
def variantName (scenario : Scenario) : String :=
  match scenario with
  | Scenario.comms _ => "comms"
  | Scenario.radar _ => "radar"

/-- evaluate.py: the initial metrics dict of `evaluate_case`, holding the
case identifier when one is given. -/
def baseMeta (case_id : Option String) : MetricsDict :=
  match case_id with
  | some cid => [("meta.case_id", MValue.str cid)]
  | none => []

/-- evaluate.py: the verification keys `evaluate_case` writes from a
verification report. -/
def verificationEntries (report : VerificationReport) : MetricsDict :=
  [("verification.passes", MValue.num (if report.passes then 1 else 0)),
   ("verification.must_pass_count", MValue.num (report.must_pass_count : ℚ)),
   ("verification.must_total_count", MValue.num (report.must_total_count : ℚ)),
   ("verification.failed_ids",
     MValue.str (String.intercalate "," report.failed_ids))]

/-- evaluate.py `evaluate_case`: run the antenna model on an empty context,
merge, build the shared context from the antenna output, run the power and
cost models on it, run the one scenario-specific model, verify a supplied
non-empty requirement set, and stamp the elapsed wall time (passed here as
the `elapsed` argument, since wall-clock time is external input).  Every
merge is a plain Python `dict.update`; exceptions from any model
propagate. -/
def evaluate_case (collab : Collab) (ops : Ops) (arch : Architecture)
    (scenario : Scenario) (requirements : Option RequirementSet)
    (case_id : Option String) (elapsed : ℚ) : Except String MetricsDict :=
  let metrics0 := baseMeta case_id
  match collab.antenna arch scenario [] with
  | Except.error e => Except.error e
  | Except.ok antenna_metrics =>
    let metrics1 := dictUpdate metrics0 antenna_metrics
    -- context with antenna results for downstream models
    let context := antenna_metrics
    match collab.power arch scenario context with
    | Except.error e => Except.error e
    | Except.ok power_metrics =>
      let metrics2 := dictUpdate metrics1 power_metrics
      match collab.cost arch scenario context with
      | Except.error e => Except.error e
      | Except.ok cost_metrics =>
        let metrics3 := dictUpdate metrics2 cost_metrics
        match scenarioModel collab ops arch scenario context with
        | Except.error e => Except.error e
        | Except.ok scenario_metrics =>
          let metrics4 := dictUpdate metrics3 scenario_metrics
          let metrics5 :=
            match requirements with
            | some reqs =>
              if 0 < reqs.length then
                dictUpdate metrics4 (verificationEntries (verify reqs metrics4))
              else metrics4
            | none => metrics4
          Except.ok (dictSet metrics5 "meta.runtime_s" (MValue.num elapsed))

/-- Instrumented rendition of evaluate.py `evaluate_case` that also records,
in order, each model invocation together with the context it receives. -/
def evaluate_case_trace (collab : Collab) (ops : Ops) (arch : Architecture)
    (scenario : Scenario) (requirements : Option RequirementSet)
    (case_id : Option String) (elapsed : ℚ) :
    Except String (MetricsDict × List (String × MetricsDict)) :=
  let metrics0 := baseMeta case_id
  match collab.antenna arch scenario [] with
  | Except.error e => Except.error e
  | Except.ok antenna_metrics =>
    let metrics1 := dictUpdate metrics0 antenna_metrics
    let context := antenna_metrics
    match collab.power arch scenario context with
    | Except.error e => Except.error e
    | Except.ok power_metrics =>
      let metrics2 := dictUpdate metrics1 power_metrics
      match collab.cost arch scenario context with
      | Except.error e => Except.error e
      | Except.ok cost_metrics =>
        let metrics3 := dictUpdate metrics2 cost_metrics
        match scenarioModel collab ops arch scenario context with
        | Except.error e => Except.error e
        | Except.ok scenario_metrics =>
          let metrics4 := dictUpdate metrics3 scenario_metrics
          let metrics5 :=
            match requirements with
            | some reqs =>
              if 0 < reqs.length then
                dictUpdate metrics4 (verificationEntries (verify reqs metrics4))
              else metrics4
            | none => metrics4
          Except.ok
            (dictSet metrics5 "meta.runtime_s" (MValue.num elapsed),
             [("antenna", []), ("power", context), ("cost", context),
              (variantName scenario, context)])

/-- Lookup in the metrics record of a successful evaluation; `none` when
the evaluation raised. -/
def resLookup (r : Except String MetricsDict) (k : String) : Option MValue :=
  match r with
  | Except.ok m => alookup m k
  | Except.error _ => none

/-- The metrics record accumulated by `evaluate_case` after all models have
run, before verification and timing metadata. -/
def mergedModels (case_id : Option String)
    (am pm cm sm : MetricsDict) : MetricsDict :=
  dictUpdate (dictUpdate (dictUpdate (dictUpdate (baseMeta case_id) am) pm) cm) sm

/-- An objective direction of the Pareto engine. -/
inductive Direction where
  | minimize
  | maximize
deriving DecidableEq, Repr

/-- A row of a Results Table restricted to its numeric columns. -/
abbrev PRow := List (String × ℚ)

/-- Value of a row at a metric key (objective keys are present in the rows
the engine compares). -/
def PRow.get (r : PRow) (k : String) : ℚ := (alookup r k).getD 0

/-- Candidate value at least as good as the incumbent in the given
direction. -/
def atLeastAsGood (d : Direction) (a b : ℚ) : Bool :=
  match d with
  | Direction.minimize => a ≤ b
  | Direction.maximize => b ≤ a

/-- Candidate value strictly better than the incumbent in the given
direction. -/
def strictlyBetter (d : Direction) (a b : ℚ) : Bool :=
  match d with
  | Direction.minimize => a < b
  | Direction.maximize => b < a

/-- Standard Pareto dominance: `rj` dominates `ri` iff `rj` is at least as
good on every objective and strictly better on at least one.  This is the
dominance test of the demo extraction loop in app/pages/2_Trade_Study.py,
stated for an arbitrary objective list. -/
def dominates (objs : List (String × Direction)) (rj ri : PRow) : Bool :=
  (objs.all fun o => atLeastAsGood o.2 (rj.get o.1) (ri.get o.1)) &&
    (objs.any fun o => strictlyBetter o.2 (rj.get o.1) (ri.get o.1))

/-- Modelled from the spec: `extract_pareto` (the Pareto Engine's
extraction, whose implementation module is not among the provided sources)
keeps exactly the rows not dominated by any row of the table, by pairwise
comparison; the demo loop in app/pages/2_Trade_Study.py implements the
same filter for the fixed objective pair (cost_usd minimize, eirp_dbw
maximize). -/
def extract_pareto (rows : List PRow) (objs : List (String × Direction)) :
    List PRow :=
  rows.filter fun ri => !(rows.any fun rj => dominates objs rj ri)

/-- Claim C3: for every results table and objective set, the output of
Pareto extraction contains no row dominated by another row of the same
output, and re-running extraction on the returned frontier returns the
same set. -/
theorem extract_pareto_no_dominated_and_idempotent
    (objs : List (String × Direction)) (rows : List PRow) :
    (∀ r1 ∈ extract_pareto rows objs, ∀ r2 ∈ extract_pareto rows objs,
        dominates objs r2 r1 = false) ∧
      extract_pareto (extract_pareto rows objs) objs =
        extract_pareto rows objs := by
  have hmem : ∀ r ∈ extract_pareto rows objs,
      r ∈ rows ∧ ∀ rj ∈ rows, dominates objs rj r = false := by
    intro r hr
    rw [extract_pareto, List.mem_filter] at hr
    refine ⟨hr.1, ?_⟩
    have hp := hr.2
    rw [Bool.not_eq_true', List.any_eq_false] at hp
    intro rj hj
    have := hp rj hj
    simpa using this
  constructor
  · intro r1 h1 r2 h2
    exact (hmem r1 h1).2 r2 (hmem r2 h2).1
  · rw [extract_pareto, List.filter_eq_self]
    intro r hr
    rw [Bool.not_eq_true', List.any_eq_false]
    intro rj hj
    have hjrows : rj ∈ rows := ((hmem rj hj).1)
    have := (hmem r hr).2 rj hjrows
    simp [this]

/-- Claim C10: for n_pulses >= 1 the non-coherent integration gain never
exceeds the coherent gain, and the integration loss is 0 dB for coherent
integration and nonnegative for non-coherent integration. -/
theorem noncoherent_gain_le_coherent_gain (n_pulses : ℤ) (pd pfa : ℚ)
    (h : 1 ≤ n_pulses) :
    RealSem.noncoherent_integration_gain n_pulses pd pfa =
        Except.ok (RealSem.noncoherent_gain_val n_pulses pd) ∧
      RealSem.coherent_integration_gain n_pulses =
        Except.ok (RealSem.coherent_gain_val n_pulses) ∧
      RealSem.noncoherent_gain_val n_pulses pd ≤
        RealSem.coherent_gain_val n_pulses ∧
      RealSem.integration_loss n_pulses IntegrationType.coherent pd pfa =
        Except.ok 0 ∧
      RealSem.integration_loss n_pulses IntegrationType.noncoherent pd pfa =
        Except.ok (RealSem.coherent_gain_val n_pulses -
          RealSem.noncoherent_gain_val n_pulses pd) ∧
      0 ≤ RealSem.coherent_gain_val n_pulses -
        RealSem.noncoherent_gain_val n_pulses pd := by
  have hn : ¬n_pulses < 1 := by omega
  have hle : RealSem.noncoherent_gain_val n_pulses pd ≤
      RealSem.coherent_gain_val n_pulses := by
    rw [RealSem.noncoherent_gain_val, RealSem.coherent_gain_val]
    by_cases h1 : n_pulses = 1
    · simp [h1]
    · rw [if_neg h1, if_neg h1]
      have hlog : 0 ≤ Real.logb 10 (n_pulses : ℝ) := by
        apply Real.logb_nonneg (by norm_num)
        exact_mod_cast h
      have heff : (if (99 : ℚ) / 100 ≤ pd then (7 : ℝ) / 10
          else if (9 : ℚ) / 10 ≤ pd then 8 / 10
          else if (1 : ℚ) / 2 ≤ pd then 85 / 100 else 9 / 10) ≤ 1 := by
        split_ifs <;> norm_num
      set L := Real.logb 10 (n_pulses : ℝ)
      set e := (if (99 : ℚ) / 100 ≤ pd then (7 : ℝ) / 10
        else if (9 : ℚ) / 10 ≤ pd then 8 / 10
        else if (1 : ℚ) / 2 ≤ pd then 85 / 100 else 9 / 10)
      show 10 * e * L ≤ 10 * L
      nlinarith [hlog, heff]
  refine ⟨?_, ?_, hle, ?_, ?_, by linarith⟩
  · rw [RealSem.noncoherent_integration_gain, if_neg hn]
  · rw [RealSem.coherent_integration_gain, if_neg hn]
  · rfl
  · rw [RealSem.integration_loss, RealSem.coherent_integration_gain, if_neg hn,
      RealSem.noncoherent_integration_gain, if_neg hn]

/-- Witness for claim C10 at n_pulses = 4, pd = 0.9, pfa = 1e-6. -/
theorem noncoherent_gain_le_coherent_gain_witness :
    (1 : ℤ) ≤ 4 ∧
      (RealSem.noncoherent_integration_gain 4 (9 / 10) (1 / 1000000) =
          Except.ok (RealSem.noncoherent_gain_val 4 (9 / 10)) ∧
        RealSem.coherent_integration_gain 4 =
          Except.ok (RealSem.coherent_gain_val 4) ∧
        RealSem.noncoherent_gain_val 4 (9 / 10) ≤
          RealSem.coherent_gain_val 4 ∧
        RealSem.integration_loss 4 IntegrationType.coherent (9 / 10)
            (1 / 1000000) = Except.ok 0 ∧
        RealSem.integration_loss 4 IntegrationType.noncoherent (9 / 10)
            (1 / 1000000) = Except.ok (RealSem.coherent_gain_val 4 -
            RealSem.noncoherent_gain_val 4 (9 / 10)) ∧
        0 ≤ RealSem.coherent_gain_val 4 -
          RealSem.noncoherent_gain_val 4 (9 / 10)) :=
  ⟨by decide, noncoherent_gain_le_coherent_gain 4 (9 / 10) (1 / 1000000) (by decide)⟩

/-- Claim C9: for every SNR, every false-alarm probability strictly between
0 and 1, every Swerling model in 0..4, every pulse count >= 1 and either
integration type, `compute_pd_from_snr` succeeds and returns a probability
in the closed interval [0, 1] (the source clamps its approximation with
max(0.0, min(1.0, pd))); this holds for every interpretation of the
floating-point special functions. -/
theorem compute_pd_from_snr_in_unit_interval (ops : Ops) (snr_db pfa : ℚ)
    (swerling n_pulses : ℤ) (integration : IntegrationType)
    (h0 : 0 < pfa) (h1 : pfa < 1)
    (hsw : swerling = 0 ∨ swerling = 1 ∨ swerling = 2 ∨ swerling = 3 ∨
      swerling = 4)
    (hn : 1 ≤ n_pulses) :
    ∃ v, compute_pd_from_snr ops snr_db pfa swerling n_pulses integration =
        Except.ok v ∧ 0 ≤ v ∧ v ≤ 1 := by
  have hg : ¬¬(0 < pfa ∧ pfa < 1) := not_not_intro ⟨h0, h1⟩
  have hth : compute_detection_threshold ops pfa 1 =
      Except.ok (ops.gammaincinv 1 (1 - pfa)) := by
    rw [compute_detection_threshold, if_neg hg, if_neg (by norm_num)]
    norm_num
  rw [compute_pd_from_snr, if_neg hg]
  simp only [hth]
  have hclamp : ∀ x : ℚ, 0 ≤ max 0 (min 1 x) ∧ max 0 (min 1 x) ≤ 1 :=
    fun x => ⟨le_max_left 0 _, max_le (by norm_num) (min_le_left 1 x)⟩
  rcases hsw with rfl | rfl | rfl | rfl | rfl
  · rw [if_pos rfl]
    split_ifs <;> exact ⟨_, rfl, hclamp _⟩
  all_goals rw [if_neg (by decide), if_pos (by decide)]
  all_goals exact ⟨_, rfl, hclamp _⟩

/-- Witness for claim C9 at snr_db = 5, pfa = 1/2, Swerling 0, one pulse,
coherent integration, with the concrete default interpretation of the
special functions. -/
theorem compute_pd_from_snr_in_unit_interval_witness :
    ((0 : ℚ) < 1 / 2 ∧ (1 : ℚ) / 2 < 1 ∧
      ((0 : ℤ) = 0 ∨ (0 : ℤ) = 1 ∨ (0 : ℤ) = 2 ∨ (0 : ℤ) = 3 ∨ (0 : ℤ) = 4) ∧
      (1 : ℤ) ≤ 1) ∧
      ∃ v, compute_pd_from_snr defaultOps 5 (1 / 2) 0 1
          IntegrationType.coherent = Except.ok v ∧ 0 ≤ v ∧ v ≤ 1 :=
  ⟨⟨by norm_num, by norm_num, Or.inl rfl, by decide⟩,
    compute_pd_from_snr_in_unit_interval defaultOps 5 (1 / 2) 0 1
      IntegrationType.coherent (by norm_num) (by norm_num) (Or.inl rfl)
      (by decide)⟩

/-- Collaborating models that succeed and contribute no metrics, for
evaluating the pipeline on closed inputs. -/
def okCollab : Collab :=
  ⟨fun _ _ _ => Except.ok [], fun _ _ _ => Except.ok [],
   fun _ _ _ => Except.ok [], fun _ _ _ => Except.ok []⟩

/-- A 16 x 16 half-wavelength array with 10 W per element (the architecture
of tests/test_radar.py), 2 dB system loss, 3 dB noise figure. -/
def sampleArchitecture : Architecture :=
  ⟨⟨16, 16, 1 / 2, 1 / 2⟩, ⟨10, 0, 2, 3⟩, ⟨100, 0, 0⟩⟩

/-- A radar scenario accepted by every field validator of
`RadarDetectionScenario` but with pd_required = 0.05, outside the domain of
Albersheim's equation. -/
def lowPdScenario : RadarDetectionScenario :=
  ⟨10 ^ 10, 10 ^ 6, 50000, 0, 290, 1 / 10 ^ 6, 1 / 20, 1, 0,
    IntegrationType.noncoherent⟩

/-- Claim C8: a `RadarDetectionScenario` accepted by all of the scenario's
field validators (pd_required = 0.05 satisfies 0 < pd < 1) makes
single-case radar evaluation raise ValueError, because `RadarModel.evaluate`
calls `albersheim_snr`, which rejects pd outside [0.1, 0.9999]. -/
theorem low_pd_scenario_valid_but_evaluation_raises :
    lowPdScenario.valid = true ∧
      evaluate_case okCollab defaultOps sampleArchitecture
          (Scenario.radar lowPdScenario) none none 0 =
        Except.error "pd must be between 0.1 and 0.9999 for Albersheim" := by
  constructor
  · norm_num [RadarDetectionScenario.valid, lowPdScenario]
  · norm_num [evaluate_case, scenarioModel, okCollab, RadarModel.evaluate,
      lowPdScenario, noncoherent_integration_gain, albersheim_snr]

/-- A comms-link scenario fixture for closed evaluations. -/
def sampleCommsScenario : CommsLinkScenario := ⟨10 ^ 9, 10 ^ 6, 1000, 10⟩

/-- Claim C6: in single-case evaluation, an exception raised by any model
propagates unchanged to the caller of `evaluate_case`; it is neither caught
nor recorded in a returned metrics record (no record is returned at
all). -/
theorem evaluate_case_propagates_model_exceptions (collab : Collab)
    (ops : Ops) (arch : Architecture) (scenario : Scenario)
    (requirements : Option RequirementSet) (case_id : Option String)
    (elapsed : ℚ) (e : String) :
    (collab.antenna arch scenario [] = Except.error e →
        evaluate_case collab ops arch scenario requirements case_id elapsed =
          Except.error e) ∧
      (∀ am, collab.antenna arch scenario [] = Except.ok am →
        collab.power arch scenario am = Except.error e →
        evaluate_case collab ops arch scenario requirements case_id elapsed =
          Except.error e) ∧
      (∀ am pm, collab.antenna arch scenario [] = Except.ok am →
        collab.power arch scenario am = Except.ok pm →
        collab.cost arch scenario am = Except.error e →
        evaluate_case collab ops arch scenario requirements case_id elapsed =
          Except.error e) ∧
      (∀ am pm cm, collab.antenna arch scenario [] = Except.ok am →
        collab.power arch scenario am = Except.ok pm →
        collab.cost arch scenario am = Except.ok cm →
        scenarioModel collab ops arch scenario am = Except.error e →
        evaluate_case collab ops arch scenario requirements case_id elapsed =
          Except.error e) := by
  refine ⟨fun h => ?_, fun am hA h => ?_, fun am pm hA hP h => ?_,
    fun am pm cm hA hP hC h => ?_⟩
  · simp [evaluate_case, h]
  · simp [evaluate_case, hA, h]
  · simp [evaluate_case, hA, hP, h]
  · simp [evaluate_case, hA, hP, hC, h]

/-- Collaborators whose antenna model raises. -/
def errAntennaCollab : Collab :=
  ⟨fun _ _ _ => Except.error "boom", fun _ _ _ => Except.ok [],
   fun _ _ _ => Except.ok [], fun _ _ _ => Except.ok []⟩

/-- Collaborators whose power model raises. -/
def errPowerCollab : Collab :=
  ⟨fun _ _ _ => Except.ok [], fun _ _ _ => Except.error "boom",
   fun _ _ _ => Except.ok [], fun _ _ _ => Except.ok []⟩

/-- Collaborators whose cost model raises. -/
def errCostCollab : Collab :=
  ⟨fun _ _ _ => Except.ok [], fun _ _ _ => Except.ok [],
   fun _ _ _ => Except.error "boom", fun _ _ _ => Except.ok []⟩

/-- Collaborators whose comms model raises. -/
def errCommsCollab : Collab :=
  ⟨fun _ _ _ => Except.ok [], fun _ _ _ => Except.ok [],
   fun _ _ _ => Except.ok [], fun _ _ _ => Except.error "boom"⟩

/-- Witness for claim C6: each of the four model slots propagates its
exception on a concrete evaluation. -/
theorem evaluate_case_propagates_model_exceptions_witness :
    evaluate_case errAntennaCollab defaultOps sampleArchitecture
        (Scenario.comms sampleCommsScenario) none none 0 =
      Except.error "boom" ∧
    evaluate_case errPowerCollab defaultOps sampleArchitecture
        (Scenario.comms sampleCommsScenario) none none 0 =
      Except.error "boom" ∧
    evaluate_case errCostCollab defaultOps sampleArchitecture
        (Scenario.comms sampleCommsScenario) none none 0 =
      Except.error "boom" ∧
    evaluate_case errCommsCollab defaultOps sampleArchitecture
        (Scenario.comms sampleCommsScenario) none none 0 =
      Except.error "boom" :=
  ⟨(evaluate_case_propagates_model_exceptions errAntennaCollab defaultOps
      sampleArchitecture (Scenario.comms sampleCommsScenario) none none 0
      "boom").1 rfl,
   (evaluate_case_propagates_model_exceptions errPowerCollab defaultOps
      sampleArchitecture (Scenario.comms sampleCommsScenario) none none 0
      "boom").2.1 [] rfl rfl,
   (evaluate_case_propagates_model_exceptions errCostCollab defaultOps
      sampleArchitecture (Scenario.comms sampleCommsScenario) none none 0
      "boom").2.2.1 [] [] rfl rfl rfl,
   (evaluate_case_propagates_model_exceptions errCommsCollab defaultOps
      sampleArchitecture (Scenario.comms sampleCommsScenario) none none 0
      "boom").2.2.2 [] [] [] rfl rfl rfl rfl⟩

/-- Claim C7: `RadarModel.evaluate` is deterministic; equal design, scenario
and context arguments give equal metric mappings.  The embedding renders
the source method as a pure function of exactly these arguments, which is
faithful because the method body contains no assignment to its arguments,
no global state and no randomness; freedom from side effects holds by
construction of that functional embedding. -/
theorem radar_model_deterministic (ops : Ops) (a1 a2 : Architecture)
    (s1 s2 : RadarDetectionScenario) (c1 c2 : MetricsDict)
    (ha : a1 = a2) (hs : s1 = s2) (hc : c1 = c2) :
    RadarModel.evaluate ops a1 s1 c1 = RadarModel.evaluate ops a2 s2 c2 := by
  rw [ha, hs, hc]

/-- Witness for claim C7 on concrete arguments. -/
theorem radar_model_deterministic_witness :
    RadarModel.evaluate defaultOps sampleArchitecture lowPdScenario
        [("g_peak_db", MValue.num 30)] =
      RadarModel.evaluate defaultOps sampleArchitecture lowPdScenario
        [("g_peak_db", MValue.num 30)] :=
  radar_model_deterministic defaultOps sampleArchitecture sampleArchitecture
    lowPdScenario lowPdScenario [("g_peak_db", MValue.num 30)]
    [("g_peak_db", MValue.num 30)] rfl rfl rfl

/-- Claim C2: when every model succeeds, `evaluate_case` runs the models in
the fixed order antenna, power, cost, then exactly one scenario-specific
model selected by the scenario's variant, and the power, cost and scenario
models all receive the antenna output as their shared context (the antenna
model receives the empty context). -/
theorem evaluate_case_model_order (collab : Collab) (ops : Ops)
    (arch : Architecture) (scenario : Scenario) (case_id : Option String)
    (elapsed : ℚ) (am pm cm sm : MetricsDict)
    (hA : collab.antenna arch scenario [] = Except.ok am)
    (hP : collab.power arch scenario am = Except.ok pm)
    (hC : collab.cost arch scenario am = Except.ok cm)
    (hS : scenarioModel collab ops arch scenario am = Except.ok sm) :
    evaluate_case_trace collab ops arch scenario none case_id elapsed =
      Except.ok
        (dictSet (mergedModels case_id am pm cm sm) "meta.runtime_s"
          (MValue.num elapsed),
         [("antenna", []), ("power", am), ("cost", am),
          (variantName scenario, am)]) := by
  simp [evaluate_case_trace, mergedModels, hA, hP, hC, hS]

/-- Collaborators returning distinct singleton metric sets, to exhibit the
model ordering on a closed run. -/
def namedCollab : Collab :=
  ⟨fun _ _ _ => Except.ok [("g_peak_db", MValue.num 30)],
   fun _ _ _ => Except.ok [("prime_power_w", MValue.num 100)],
   fun _ _ _ => Except.ok [("cost_usd", MValue.num 5000)],
   fun _ _ _ => Except.ok [("snr_db", MValue.num 12)]⟩

/-- Witness for claim C2 on a closed comms-variant evaluation. -/
theorem evaluate_case_model_order_witness :
    evaluate_case_trace namedCollab defaultOps sampleArchitecture
        (Scenario.comms sampleCommsScenario) none none 0 =
      Except.ok
        (dictSet
          (mergedModels none [("g_peak_db", MValue.num 30)]
            [("prime_power_w", MValue.num 100)]
            [("cost_usd", MValue.num 5000)] [("snr_db", MValue.num 12)])
          "meta.runtime_s" (MValue.num 0),
         [("antenna", []), ("power", [("g_peak_db", MValue.num 30)]),
          ("cost", [("g_peak_db", MValue.num 30)]),
          (variantName (Scenario.comms sampleCommsScenario),
            [("g_peak_db", MValue.num 30)])]) :=
  evaluate_case_model_order namedCollab defaultOps sampleArchitecture
    (Scenario.comms sampleCommsScenario) none 0
    [("g_peak_db", MValue.num 30)] [("prime_power_w", MValue.num 100)]
    [("cost_usd", MValue.num 5000)] [("snr_db", MValue.num 12)]
    rfl rfl rfl rfl

/-- Collaborators whose models write overlapping keys: the antenna model
writes x = 1, the power model re-writes x = 2, and the comms model
re-writes x = 3. -/
def overwriteCollab : Collab :=
  ⟨fun _ _ _ => Except.ok [("x", MValue.num 1)],
   fun _ _ _ => Except.ok [("x", MValue.num 2)],
   fun _ _ _ => Except.ok [],
   fun _ _ _ => Except.ok [("x", MValue.num 3)]⟩

/-- Counterexample to claim C1: with models that write a key already
present in the accumulated record, the evaluation does not raise any
error, let alone a `MetricConflict` (no such error exists in the source);
the merge silently overwrites the earlier values and the run returns a
record carrying the last writer's value x = 3. -/
theorem evaluate_case_silent_overwrite_counterexample :
    evaluate_case overwriteCollab defaultOps sampleArchitecture
        (Scenario.comms sampleCommsScenario) none none 0 =
      Except.ok [("x", MValue.num 3), ("meta.runtime_s", MValue.num 0)] := by
  rfl

/-- Claim C1 as amended: the pipeline merges model outputs with plain
last-writer-wins dict updates; an evaluation in which every model succeeds
always returns a record (no conflict error is ever raised), and a key
written by the scenario-specific model ends up in the returned record with
the scenario model's value, silently overwriting any earlier model's
binding of that key. -/
theorem evaluate_case_merge_last_writer_wins (collab : Collab) (ops : Ops)
    (arch : Architecture) (scenario : Scenario)
    (requirements : Option RequirementSet) (case_id : Option String)
    (elapsed : ℚ) (am pm cm sm : MetricsDict) (k : String) (v : MValue)
    (hA : collab.antenna arch scenario [] = Except.ok am)
    (hP : collab.power arch scenario am = Except.ok pm)
    (hC : collab.cost arch scenario am = Except.ok cm)
    (hS : scenarioModel collab ops arch scenario am = Except.ok sm)
    (hk : k ≠ "meta.runtime_s")
    (hkv : alookup sm.reverse k = some v) :
    resLookup
        (evaluate_case collab ops arch scenario requirements case_id elapsed)
        "meta.runtime_s" = some (MValue.num elapsed) ∧
      resLookup (evaluate_case collab ops arch scenario none case_id elapsed)
        k = some v := by
  constructor
  · simp only [evaluate_case, hA, hP, hC, hS, resLookup]
    cases requirements with
    | none => simp [alookup_dictSet]
    | some reqs =>
      by_cases hlen : 0 < reqs.length <;> simp [hlen, alookup_dictSet]
  · simp only [evaluate_case, hA, hP, hC, hS, resLookup]
    rw [alookup_dictSet]
    rw [if_neg fun h => hk h.symm]
    exact alookup_dictUpdate_of_mem sm _ k v hkv

/-- Witness for claim C1 (amended) on the overwriting collaborators. -/
theorem evaluate_case_merge_last_writer_wins_witness :
    resLookup
        (evaluate_case overwriteCollab defaultOps sampleArchitecture
          (Scenario.comms sampleCommsScenario) (some []) none 7)
        "meta.runtime_s" = some (MValue.num 7) ∧
      resLookup
        (evaluate_case overwriteCollab defaultOps sampleArchitecture
          (Scenario.comms sampleCommsScenario) none none 7) "x" =
        some (MValue.num 3) :=
  evaluate_case_merge_last_writer_wins overwriteCollab defaultOps
    sampleArchitecture (Scenario.comms sampleCommsScenario) (some []) none 7
    [("x", MValue.num 1)] [("x", MValue.num 2)] [] [("x", MValue.num 3)]
    "x" (MValue.num 3) rfl rfl rfl rfl (by decide) rfl

/-- Counterexample to claim C5: `evaluate_case` is called with a supplied
(but empty) RequirementSet, the evaluation succeeds (the record carries the
timing key), yet no `verification.*` key is present, because the source
guards verification with `len(requirements) > 0`. -/
theorem evaluate_case_empty_requirements_counterexample :
    resLookup
        (evaluate_case okCollab defaultOps sampleArchitecture
          (Scenario.comms sampleCommsScenario) (some []) none 0)
        "verification.passes" = none ∧
      resLookup
        (evaluate_case okCollab defaultOps sampleArchitecture
          (Scenario.comms sampleCommsScenario) (some []) none 0)
        "meta.runtime_s" = some (MValue.num 0) := by
  constructor <;> rfl

/-- Claim C5 as amended: for every call to `evaluate_case` with a supplied
non-empty RequirementSet, verification runs last — after all models have
contributed — and the returned record contains the `verification.*` keys
(aggregate pass flag, must-pass count, must-total count, failed
requirement identifiers) derived from the record merged from all model
outputs. -/
theorem evaluate_case_verification_keys (collab : Collab) (ops : Ops)
    (arch : Architecture) (scenario : Scenario) (case_id : Option String)
    (elapsed : ℚ) (am pm cm sm : MetricsDict) (reqs : RequirementSet)
    (hA : collab.antenna arch scenario [] = Except.ok am)
    (hP : collab.power arch scenario am = Except.ok pm)
    (hC : collab.cost arch scenario am = Except.ok cm)
    (hS : scenarioModel collab ops arch scenario am = Except.ok sm)
    (hreqs : 0 < reqs.length) :
    resLookup
        (evaluate_case collab ops arch scenario (some reqs) case_id elapsed)
        "verification.passes" =
      some (MValue.num
        (if (verify reqs (mergedModels case_id am pm cm sm)).passes then 1
         else 0)) ∧
      resLookup
        (evaluate_case collab ops arch scenario (some reqs) case_id elapsed)
        "verification.must_pass_count" =
      some (MValue.num
        ((verify reqs (mergedModels case_id am pm cm sm)).must_pass_count : ℚ)) ∧
      resLookup
        (evaluate_case collab ops arch scenario (some reqs) case_id elapsed)
        "verification.must_total_count" =
      some (MValue.num
        ((verify reqs (mergedModels case_id am pm cm sm)).must_total_count : ℚ)) ∧
      resLookup
        (evaluate_case collab ops arch scenario (some reqs) case_id elapsed)
        "verification.failed_ids" =
      some (MValue.str
        (String.intercalate ","
          (verify reqs (mergedModels case_id am pm cm sm)).failed_ids)) := by
  have hmerge :
      evaluate_case collab ops arch scenario (some reqs) case_id elapsed =
        Except.ok (dictSet
          (dictUpdate (mergedModels case_id am pm cm sm)
            (verificationEntries
              (verify reqs (mergedModels case_id am pm cm sm))))
          "meta.runtime_s" (MValue.num elapsed)) := by
    simp [evaluate_case, hA, hP, hC, hS, hreqs, mergedModels]
  refine ⟨?_, ?_, ?_, ?_⟩ <;>
    rw [hmerge] <;>
    simp only [resLookup, alookup_dictSet] <;>
    rw [if_neg (by decide)] <;>
    apply alookup_dictUpdate_of_mem <;>
    simp [verificationEntries, alookup]

/-- Witness for claim C5 (amended): one must-requirement on a metric written
by the antenna model. -/
theorem evaluate_case_verification_keys_witness :
    resLookup
        (evaluate_case namedCollab defaultOps sampleArchitecture
          (Scenario.comms sampleCommsScenario)
          (some [⟨"r1", "g_peak_db", CompareOp.ge, 1, Severity.must⟩])
          none 0) "verification.passes" =
      some (MValue.num
        (if (verify [⟨"r1", "g_peak_db", CompareOp.ge, 1, Severity.must⟩]
              (mergedModels none [("g_peak_db", MValue.num 30)]
                [("prime_power_w", MValue.num 100)]
                [("cost_usd", MValue.num 5000)]
                [("snr_db", MValue.num 12)])).passes then 1 else 0)) ∧
      resLookup
        (evaluate_case namedCollab defaultOps sampleArchitecture
          (Scenario.comms sampleCommsScenario)
          (some [⟨"r1", "g_peak_db", CompareOp.ge, 1, Severity.must⟩])
          none 0) "verification.must_pass_count" =
      some (MValue.num
        (((verify [⟨"r1", "g_peak_db", CompareOp.ge, 1, Severity.must⟩]
            (mergedModels none [("g_peak_db", MValue.num 30)]
              [("prime_power_w", MValue.num 100)]
              [("cost_usd", MValue.num 5000)]
              [("snr_db", MValue.num 12)])).must_pass_count : ℚ))) ∧
      resLookup
        (evaluate_case namedCollab defaultOps sampleArchitecture
          (Scenario.comms sampleCommsScenario)
          (some [⟨"r1", "g_peak_db", CompareOp.ge, 1, Severity.must⟩])
          none 0) "verification.must_total_count" =
      some (MValue.num
        (((verify [⟨"r1", "g_peak_db", CompareOp.ge, 1, Severity.must⟩]
            (mergedModels none [("g_peak_db", MValue.num 30)]
              [("prime_power_w", MValue.num 100)]
              [("cost_usd", MValue.num 5000)]
              [("snr_db", MValue.num 12)])).must_total_count : ℚ))) ∧
      resLookup
        (evaluate_case namedCollab defaultOps sampleArchitecture
          (Scenario.comms sampleCommsScenario)
          (some [⟨"r1", "g_peak_db", CompareOp.ge, 1, Severity.must⟩])
          none 0) "verification.failed_ids" =
      some (MValue.str
        (String.intercalate ","
          (verify [⟨"r1", "g_peak_db", CompareOp.ge, 1, Severity.must⟩]
            (mergedModels none [("g_peak_db", MValue.num 30)]
              [("prime_power_w", MValue.num 100)]
              [("cost_usd", MValue.num 5000)]
              [("snr_db", MValue.num 12)])).failed_ids)) :=
  evaluate_case_verification_keys namedCollab defaultOps sampleArchitecture
    (Scenario.comms sampleCommsScenario) none 0
    [("g_peak_db", MValue.num 30)] [("prime_power_w", MValue.num 100)]
    [("cost_usd", MValue.num 5000)] [("snr_db", MValue.num 12)]
    [⟨"r1", "g_peak_db", CompareOp.ge, 1, Severity.must⟩]
    rfl rfl rfl rfl (by decide)

/-- `RadarModel.evaluate` succeeds whenever the scenario's pulse count is at
least 1, its pd_required lies in Albersheim's domain [0.1, 0.9999] and its
pfa lies in [1e-10, 0.1] (and in (0, 1)). -/
theorem radar_evaluate_ok (ops : Ops) (arch : Architecture)
    (s : RadarDetectionScenario) (ctx : MetricsDict)
    (hn : 1 ≤ s.n_pulses)
    (hpd : 1 / 10 ≤ s.pd_required ∧ s.pd_required ≤ 9999 / 10000)
    (hpfa : 1 / 10 ^ 10 ≤ s.pfa ∧ s.pfa ≤ 1 / 10)
    (hpfa0 : 0 < s.pfa ∧ s.pfa < 1) :
    ∃ rm, RadarModel.evaluate ops arch s ctx = Except.ok rm := by
  have hn1 : ¬s.n_pulses < 1 := by omega
  have hig : ∃ g, (match s.integration_type with
      | IntegrationType.coherent => coherent_integration_gain ops s.n_pulses
      | IntegrationType.noncoherent =>
        noncoherent_integration_gain ops s.n_pulses s.pd_required s.pfa) =
      Except.ok g := by
    cases s.integration_type <;>
      simp only [coherent_integration_gain, noncoherent_integration_gain,
        if_neg hn1] <;>
      split_ifs <;> exact ⟨_, rfl⟩
  obtain ⟨g, hg⟩ := hig
  have halb : ∃ sr, albersheim_snr ops s.pd_required s.pfa 1 =
      Except.ok sr := by
    rw [albersheim_snr, if_neg (not_not_intro hpd),
      if_neg (not_not_intro hpfa), if_neg (by norm_num)]
    exact ⟨_, rfl⟩
  obtain ⟨sr, hsr⟩ := halb
  have hpdne : ∀ snr e, compute_pd_from_snr ops snr s.pfa 0 1
      IntegrationType.coherent ≠ Except.error e := by
    intro snr e h
    rw [compute_pd_from_snr, if_neg (not_not_intro hpfa0),
      compute_detection_threshold, if_neg (not_not_intro hpfa0),
      if_neg (by norm_num)] at h
    simp only [if_pos rfl] at h
    split_ifs at h
  cases hres : RadarModel.evaluate ops arch s ctx with
  | error e =>
    exfalso
    simp only [RadarModel.evaluate, hg, hsr] at hres
    split at hres
    · exact hpdne _ _ (by assumption)
    · cases hres
  | ok rm => exact ⟨rm, rfl⟩

/-- Any successful run of `RadarModel.evaluate` reports the antenna-gain
step's value under the `g_ant_db` key (stated for both lookup
orientations). -/
theorem radar_evaluate_g_ant_of_ok (ops : Ops) (arch : Architecture)
    (s : RadarDetectionScenario) (ctx : MetricsDict) (rm : MetricsDict)
    (h : RadarModel.evaluate ops arch s ctx = Except.ok rm) :
    alookup rm "g_ant_db" = some (MValue.num (radarGAnt ops arch ctx)) ∧
      alookup rm.reverse "g_ant_db" =
        some (MValue.num (radarGAnt ops arch ctx)) := by
  simp only [RadarModel.evaluate] at h
  split at h
  · cases h
  · split at h
    · cases h
    · split at h
      · cases h
      · rw [Except.ok.injEq] at h
        subst h
        constructor <;> simp [alookup]

/-- A key produced by the scenario-specific model that is neither the
timing key nor shadowed by the verification entries appears in the final
record of `evaluate_case` with the scenario model's value. -/
theorem evaluate_case_radar_lookup (collab : Collab) (ops : Ops)
    (arch : Architecture) (r : RadarDetectionScenario)
    (requirements : Option RequirementSet) (case_id : Option String)
    (elapsed : ℚ) (am pm cm rm : MetricsDict) (k : String) (v : MValue)
    (hA : collab.antenna arch (Scenario.radar r) [] = Except.ok am)
    (hP : collab.power arch (Scenario.radar r) am = Except.ok pm)
    (hC : collab.cost arch (Scenario.radar r) am = Except.ok cm)
    (hR : RadarModel.evaluate ops arch r am = Except.ok rm)
    (hk1 : k ≠ "meta.runtime_s")
    (hk2 : ∀ report, alookup (verificationEntries report).reverse k = none)
    (hrm : alookup rm.reverse k = some v) :
    resLookup
      (evaluate_case collab ops arch (Scenario.radar r) requirements case_id
        elapsed) k = some v := by
  simp only [evaluate_case, scenarioModel, hA, hP, hC, hR, resLookup]
  rw [alookup_dictSet, if_neg fun h => hk1 h.symm]
  cases requirements with
  | none => exact alookup_dictUpdate_of_mem rm _ k v hrm
  | some reqs =>
    by_cases hlen : 0 < reqs.length
    · simp only [if_pos hlen]
      rw [alookup_dictUpdate_of_none _ _ _ (hk2 _)]
      exact alookup_dictUpdate_of_mem rm _ k v hrm
    · simp only [if_neg hlen]
      exact alookup_dictUpdate_of_mem rm _ k v hrm

/-- A radar scenario inside the domain of every helper: pd_required = 0.9,
pfa = 1e-6, one pulse (fields as in tests/test_radar.py). -/
def sampleRadarScenario : RadarDetectionScenario :=
  ⟨10 ^ 10, 10 ^ 6, 50000, 0, 290, 1 / 10 ^ 6, 9 / 10, 1, 0,
    IntegrationType.noncoherent⟩

/-- Collaborators whose antenna model reports a 30 dB peak gain together
with a 2 dB scan loss. -/
def scanLossCollab : Collab :=
  ⟨fun _ _ _ =>
      Except.ok [("g_peak_db", MValue.num 30), ("scan_loss_db", MValue.num 2)],
   fun _ _ _ => Except.ok [], fun _ _ _ => Except.ok [],
   fun _ _ _ => Except.ok []⟩

/-- Counterexample to claim C4: the antenna model's output contains
`g_peak_db` equal to 30.0 and is passed to the radar model through the
shared context, yet the final record's `g_ant_db` is 28.0, not 30.0,
because the output also carries `scan_loss_db` = 2 and equation.py
subtracts any scan loss found in the context. -/
theorem evaluate_case_g_ant_scan_loss_counterexample :
    ctxNum [("g_peak_db", MValue.num 30), ("scan_loss_db", MValue.num 2)]
        "g_peak_db" = some 30 ∧
      resLookup
        (evaluate_case scanLossCollab defaultOps sampleArchitecture
          (Scenario.radar sampleRadarScenario) none none 0) "g_ant_db" =
      some (MValue.num 28) := by
  refine ⟨rfl, ?_⟩
  obtain ⟨rm, hR⟩ := radar_evaluate_ok defaultOps sampleArchitecture
    sampleRadarScenario
    [("g_peak_db", MValue.num 30), ("scan_loss_db", MValue.num 2)]
    (by decide) (by constructor <;> norm_num [sampleRadarScenario])
    (by constructor <;> norm_num [sampleRadarScenario])
    (by constructor <;> norm_num [sampleRadarScenario])
  have hval : radarGAnt defaultOps sampleArchitecture
      [("g_peak_db", MValue.num 30), ("scan_loss_db", MValue.num 2)] = 28 := by
    have e1 : ¬("g_peak_db" : String) = "scan_loss_db" := by decide
    norm_num [radarGAnt, ctxNum, alookup, e1]
  have hlook := (radar_evaluate_g_ant_of_ok defaultOps sampleArchitecture
    sampleRadarScenario _ rm hR).2
  rw [hval] at hlook
  exact evaluate_case_radar_lookup scanLossCollab defaultOps
    sampleArchitecture sampleRadarScenario none none 0 _ [] [] rm
    "g_ant_db" (MValue.num 28) rfl rfl rfl hR (by decide)
    (fun report => by simp [verificationEntries, alookup]) hlook

/-- Claim C4 as amended: when the antenna model's output contains
`g_peak_db` = 30.0 and no `scan_loss_db` key, and the radar model run on
that context succeeds, the final record of `evaluate_case` contains
`g_ant_db` exactly equal to 30.0 (with a `scan_loss_db` key present the
radar model instead records the gain minus that loss). -/
theorem evaluate_case_g_ant_context_propagation (collab : Collab) (ops : Ops)
    (arch : Architecture) (r : RadarDetectionScenario)
    (requirements : Option RequirementSet) (case_id : Option String)
    (elapsed : ℚ) (am pm cm rm : MetricsDict)
    (hA : collab.antenna arch (Scenario.radar r) [] = Except.ok am)
    (hg : ctxNum am "g_peak_db" = some 30)
    (hs : ctxNum am "scan_loss_db" = none)
    (hP : collab.power arch (Scenario.radar r) am = Except.ok pm)
    (hC : collab.cost arch (Scenario.radar r) am = Except.ok cm)
    (hR : RadarModel.evaluate ops arch r am = Except.ok rm) :
    resLookup
      (evaluate_case collab ops arch (Scenario.radar r) requirements case_id
        elapsed) "g_ant_db" = some (MValue.num 30) := by
  have hval : radarGAnt ops arch am = 30 := by
    simp only [radarGAnt, hg, hs]
  have hlook := (radar_evaluate_g_ant_of_ok ops arch r am rm hR).2
  rw [hval] at hlook
  exact evaluate_case_radar_lookup collab ops arch r requirements case_id
    elapsed am pm cm rm "g_ant_db" (MValue.num 30) hA hP hC hR (by decide)
    (fun report => by simp [verificationEntries, alookup]) hlook

/-- Collaborators whose antenna model reports a clean 30 dB peak gain. -/
def gainCollab : Collab :=
  ⟨fun _ _ _ => Except.ok [("g_peak_db", MValue.num 30)],
   fun _ _ _ => Except.ok [], fun _ _ _ => Except.ok [],
   fun _ _ _ => Except.ok []⟩

/-- Witness for claim C4 (amended) on a closed radar evaluation. -/
theorem evaluate_case_g_ant_context_propagation_witness :
    resLookup
      (evaluate_case gainCollab defaultOps sampleArchitecture
        (Scenario.radar sampleRadarScenario) none none 0) "g_ant_db" =
      some (MValue.num 30) := by
  obtain ⟨rm, hR⟩ := radar_evaluate_ok defaultOps sampleArchitecture
    sampleRadarScenario [("g_peak_db", MValue.num 30)]
    (by decide) (by constructor <;> norm_num [sampleRadarScenario])
    (by constructor <;> norm_num [sampleRadarScenario])
    (by constructor <;> norm_num [sampleRadarScenario])
  exact evaluate_case_g_ant_context_propagation gainCollab defaultOps
    sampleArchitecture sampleRadarScenario none none 0 _ [] [] rm
    rfl rfl rfl rfl rfl hR

/-- A small demo results table for the Pareto objectives of
app/pages/2_Trade_Study.py (cost_usd minimize, eirp_dbw maximize). -/
def demoRows : List PRow :=
  [[("cost_usd", 1), ("eirp_dbw", 5)],
   [("cost_usd", 2), ("eirp_dbw", 4)],
   [("cost_usd", 2), ("eirp_dbw", 6)]]

/-- The fixed objective pair of the demo Pareto loop. -/
def demoObjs : List (String × Direction) :=
  [("cost_usd", Direction.minimize), ("eirp_dbw", Direction.maximize)]

/-- Witness for claim C3 on the demo table: extraction is idempotent there
and neither frontier row dominates the other. -/
theorem extract_pareto_no_dominated_and_idempotent_witness :
    extract_pareto (extract_pareto demoRows demoObjs) demoObjs =
        extract_pareto demoRows demoObjs ∧
      dominates demoObjs [("cost_usd", 2), ("eirp_dbw", 6)]
        [("cost_usd", 1), ("eirp_dbw", 5)] = false :=
  ⟨(extract_pareto_no_dominated_and_idempotent demoObjs demoRows).2,
   (extract_pareto_no_dominated_and_idempotent demoObjs demoRows).1
     [("cost_usd", 1), ("eirp_dbw", 5)] (by decide)
     [("cost_usd", 2), ("eirp_dbw", 6)] (by decide)⟩
